import Mathlib

/-!
A verification development for the NLWeb query-orchestration pipeline
(`code/core/*.py`, `code/pre_retrieval/*.py`, `code/prompts/prompt_runner.py`).

The Python code is embedded shallowly: the per-request handler object becomes
an explicit `Handler` state record, every coroutine body becomes a pure state
transformer, and each `await` of an external service (LLM call, vector-DB
search, stream write) is parameterised by an oracle argument giving that
call's outcome.  A function modelling a Python method returns the mutated
state together with an `Option String` holding the exception that escaped the
method, if any (`none` = the method returned normally); mutations performed
before a raise are kept, as in Python.  Messages are association lists of
string keys, as Python dicts; JSON values that the pipeline never inspects
(schema objects) are carried as their source strings.
-/

namespace NLWeb

/-- Precheck step states, from `core/state.py` (`INITIAL = 0`, `DONE = 2`). -/
inductive StepState where
  | INITIAL
  | DONE
deriving DecidableEq, Repr

/-- A retrieved item from the vector database: the tuple
`(url, schema_json, name, site)` used throughout `core/ranking.py`. -/
structure Item where
  url : String
  schemaJson : String
  name : String
  site : String
deriving DecidableEq, Repr

/-- One entry of `Ranking.rankedAnswers`: the dict built in `Ranking.rankItem`
(`url`, `site`, `name`, `ranking.score`, `ranking.description`,
`schema_object`, `sent`).  The parsed schema object is carried as its source
JSON string. -/
structure RankedAnswer where
  url : String
  site : String
  name : String
  score : Int
  description : String
  schemaObject : String
  sent : Bool
deriving DecidableEq, Repr

/-- One entry of the `json_results` list built in `Ranking.sendAnswers`. -/
structure JsonResult where
  url : String
  name : String
  site : String
  siteUrl : String
  score : Int
  description : String
  schemaObject : String
deriving DecidableEq, Repr

/-- A value stored under a key of an outbound message dict. -/
inductive MVal where
  | str (v : String)
  | results (rs : List JsonResult)
deriving DecidableEq, Repr

/-- An outbound message: a Python dict, modelled as an association list in
insertion order. -/
abbrev Msg := List (String × MVal)

/-- Dict lookup on a message (`message[k]`, as an `Option`). -/
def msgLookup : Msg → String → Option MVal
  | [], _ => none
  | (k', v) :: rest, k => if k' = k then some v else msgLookup rest k

/-- Dict assignment on a message (`message[k] = v`): replaces the binding if
the key is present, otherwise appends it, as Python dicts do. -/
def msgSetKey : Msg → String → MVal → Msg
  | [], k, v => [(k, v)]
  | (k', v') :: rest, k, v =>
      if k' = k then (k, v) :: rest else (k', v') :: msgSetKey rest k v

/-- The `message_type` tag of a message, when present and a string. -/
def msgType (m : Msg) : Option String :=
  match msgLookup m "message_type" with
  | some (MVal.str s) => some s
  | _ => none

/-- The `results` payload of a message (empty when absent). -/
def msgResults (m : Msg) : List JsonResult :=
  match msgLookup m "results" with
  | some (MVal.results rs) => rs
  | _ => []

/-- A value of the non-streaming `return_value` map: either the flat
`results` list or a stored message body. -/
inductive RVal where
  | results (rs : List JsonResult)
  | obj (m : Msg)
deriving DecidableEq, Repr

/-- An LLM analyzer response: a parsed JSON object with string fields. -/
abbrev Dict := List (String × String)

/-- Dict lookup on an analyzer response. -/
def dget : Dict → String → Option String
  | [], _ => none
  | (k', v) :: rest, k => if k' = k then some v else dget rest k

/-- Python truthiness of an optional dict: `None` and `{}` are falsy. -/
def truthy (o : Option Dict) : Option Dict :=
  match o with
  | none => none
  | some d => if d.isEmpty then none else some d

/-- The per-request handler state of `NLWebHandler` (`core/baseHandler.py`)
together with the `NLWebHandlerState` step map (`core/state.py`).  `asyncio`
events are booleans (`true` = set); `stream` is the sequence of messages
written to the client connection so far, in order. -/
structure Handler where
  site : String
  query : String
  prevQueries : List String
  decontextualizedQuery : String
  contextUrl : String
  contextDescription : String
  queryId : String
  streaming : Bool
  generateMode : String
  itemType : String
  queryDone : Bool
  queryIsIrrelevant : Bool
  requiresDecontextualization : Bool
  requiredInfoFound : Bool
  userQuestion : String
  summary : String
  preCheckStepState : List (String × StepState)
  deconEvent : Bool
  preChecksDoneEvent : Bool
  retrievalDoneEvent : Bool
  connectionAliveEvent : Bool
  abortFastTrackEvent : Bool
  fastTrackWorked : Bool
  versionNumberSent : Bool
  sitesInEmbeddingsSent : Bool
  finalRetrievedItems : List Item
  finalRankedAnswers : List RankedAnswer
  returnValue : List (String × RVal)
  stream : List Msg
deriving DecidableEq, Repr

/-- Result of a Python coroutine body: the handler state when the method
finished, plus the exception that escaped it, if any. -/
abbrev PyResult := Handler × Option String

/-- Models `API_VERSION` from `core/baseHandler.py`. -/
def API_VERSION : String := "0.1"

/-- Models `Ranking.EARLY_SEND_THRESHOLD`. -/
def EARLY_SEND_THRESHOLD : Int := 59

/-- Models `Ranking.NUM_RESULTS_TO_SEND`. -/
def NUM_RESULTS_TO_SEND : Nat := 10

/-- Models `Ranking.FAST_TRACK`. -/
def FAST_TRACK : Nat := 1

/-- Models `Ranking.REGULAR_TRACK`. -/
def REGULAR_TRACK : Nat := 2

/-- Update (or add) a step binding in the precheck step map, as Python dict
assignment does. -/
def setStep : List (String × StepState) → String → StepState → List (String × StepState)
  | [], k, v => [(k, v)]
  | (k', v') :: rest, k, v =>
      if k' = k then (k, v) :: rest else (k', v') :: setStep rest k v

/-- Look a step up in the precheck step map. -/
def lookupStep : List (String × StepState) → String → Option StepState
  | [], _ => none
  | (k', v) :: rest, k => if k' = k then some v else lookupStep rest k

/-- Models `all(state == DONE for state in precheck_step_state.values())`. -/
def allStepsDone (m : List (String × StepState)) : Bool :=
  m.all (fun p => p.2 == StepState.DONE)

/-- Models `NLWebHandlerState.start_precheck_step`: register a step as INITIAL. -/
def start_precheck_step (h : Handler) (stepName : String) : Handler :=
  { h with preCheckStepState := setStep h.preCheckStepState stepName StepState.INITIAL }

/-- Models `NLWebHandlerState.precheck_step_done`: under the state lock, mark the
step DONE, fire the decontextualization event for the "Decon" step, and set
`pre_checks_done_event` when every registered step is DONE. -/
def precheck_step_done (h : Handler) (stepName : String) : Handler :=
  let m := setStep h.preCheckStepState stepName StepState.DONE
  let h1 := { h with preCheckStepState := m }
  let h2 := if stepName = "Decon" then { h1 with deconEvent := true } else h1
  if allStepsDone m then { h2 with preChecksDoneEvent := true } else h2

/-- Models `NLWebHandlerState.set_pre_checks_done`: sets the event unconditionally
(called from the `finally` of `NLWebHandler.prepare`). -/
def set_pre_checks_done (h : Handler) : Handler :=
  { h with preChecksDoneEvent := true }

/-- Models `NLWebHandlerState.is_decontextualization_done`. -/
def is_decontextualization_done (h : Handler) : Bool :=
  match lookupStep h.preCheckStepState "Decon" with
  | some s => s == StepState.DONE
  | none => false

/-- The non-streaming branch of `NLWebHandler.send_message`: aggregate the
message into `return_value`, with `result_batch` results appended flat under
the "results" key and every other message stored under its `message_type`.
`message["message_type"]` on an untagged message raises `KeyError`. -/
def nonStreamingStore (h : Handler) (message : Msg) : PyResult :=
  match msgLookup message "message_type" with
  | none => (h, some "KeyError: message_type")
  | some (MVal.results _) => (h, some "TypeError: message_type")
  | some (MVal.str mt) =>
    if mt = "result_batch" then
      match msgLookup message "results" with
      | some (MVal.results rs) =>
          let rv := rs.foldl
            (fun acc r =>
              match acc.lookup "results" with
              | some (RVal.results old) =>
                  acc.map (fun p => if p.1 = "results" then ("results", RVal.results (old ++ [r])) else p)
              | _ => acc ++ [("results", RVal.results [r])])
            h.returnValue
          ({ h with returnValue := rv }, none)
      | _ => (h, some "KeyError: results")
    else
      let val : Msg := message.filter (fun p => p.1 ≠ "message_type")
      let rv :=
        if (h.returnValue.lookup mt).isSome then
          h.returnValue.map (fun p => if p.1 = mt then (mt, RVal.obj val) else p)
        else h.returnValue ++ [(mt, RVal.obj val)]
      ({ h with returnValue := rv }, none)

/-- Models `NLWebHandler.send_message`.  Under the send lock: drop if the connection
is dead; in streaming mode attach `query_id`, set `versionNumberSent` on the
first send (the `api_version` announcement write itself is commented out in
the source) and write the message to the stream — a failed write (`writeOk =
false`) is caught internally and clears `connection_alive`; in non-streaming
mode aggregate into `return_value`. -/
def send_message (h : Handler) (writeOk : Bool) (message : Msg) : PyResult :=
  if !h.connectionAliveEvent then (h, none)
  else if h.streaming then
    let message := msgSetKey message "query_id" (MVal.str h.queryId)
    let h1 := if h.versionNumberSent then h else { h with versionNumberSent := true }
    if writeOk then ({ h1 with stream := h1.stream ++ [message] }, none)
    else ({ h1 with connectionAliveEvent := false }, none)
  else nonStreamingStore h message

/-- The mutable state of a `Ranking` object (`core/ranking.py`):
`ranking_type`, `num_results_sent` and the shared `rankedAnswers` list. -/
structure Ranking where
  rankingType : Nat
  numResultsSent : Nat
  rankedAnswers : List RankedAnswer
deriving DecidableEq, Repr

/-- Models `Ranking.__init__`: fresh counters and an empty answer list. -/
def Ranking.init (ty : Nat) : Ranking :=
  { rankingType := ty, numResultsSent := 0, rankedAnswers := [] }

/-- The LLM ranking call's outcome for one item: the parsed
`{score, description}` object, or the exception the call raised. -/
structure RankResp where
  score : Int
  description : String
deriving DecidableEq, Repr

/-- Outcomes of external awaits inside a ranking run: whether the
`abort_fast_track` event gets set by a concurrent precheck task while this
task is suspended at the `pre_checks_done` barrier, and whether stream
writes succeed. -/
structure WaitEnv where
  abortSetDuringWait : Bool
  writeOk : Bool
deriving DecidableEq, Repr

/-- Instrumentation of one `sendAnswers` call: the suspension on the
`pre_checks_done` barrier and the message emissions, in program order. -/
inductive SendEvent where
  | waitPreChecks
  | emit (m : Msg)
deriving DecidableEq, Repr

/-- Models `Ranking.shouldSend`: send if fewer than `NUM_RESULTS_TO_SEND - 5` were
sent so far, else if some already-sent ranked answer has a strictly lower
score than this one. -/
def shouldSend (rk : Ranking) (result : RankedAnswer) : Bool :=
  if rk.numResultsSent < NUM_RESULTS_TO_SEND - 5 then true
  else rk.rankedAnswers.any (fun r => r.sent && decide (r.score < result.score))

/-- The `json_results` entry built from a ranked answer in
`Ranking.sendAnswers`. -/
def toJsonResult (r : RankedAnswer) : JsonResult :=
  { url := r.url, name := r.name, site := r.site, siteUrl := r.site,
    score := r.score, description := r.description, schemaObject := r.schemaObject }

/-- Models `result["sent"] = True` mutates the dict shared with `rankedAnswers`;
identity is by `url`, unique within a result set. -/
def markSentByUrl (l : List RankedAnswer) (url : String) : List RankedAnswer :=
  l.map (fun r => if r.url = url then { r with sent := true } else r)

/-- The selection loop of `Ranking.sendAnswers`: for each answer passing
`shouldSend` (or under `force`), build its json entry and set its `sent` flag
(also through the `rankedAnswers` alias).  Returns the json entries, the
updated `answers` list, and the updated `rankedAnswers` list. -/
def selectLoop (force : Bool) :
    Ranking → List RankedAnswer → List JsonResult × List RankedAnswer × List RankedAnswer
  | rk, [] => ([], [], rk.rankedAnswers)
  | rk, a :: rest =>
    if shouldSend rk a || force then
      let rk' := { rk with rankedAnswers := markSentByUrl rk.rankedAnswers a.url }
      let res := selectLoop force rk' rest
      (toJsonResult a :: res.1, { a with sent := true } :: res.2.1, res.2.2)
    else
      let res := selectLoop force rk rest
      (res.1, a :: res.2.1, res.2.2)

/-- Models `Ranking.sendAnswers`: drop if the connection is dead or (fast track and
aborted); select answers and mark them sent; if any were selected, wait on
the `pre_checks_done` barrier, re-check the fast-track abort, set
`fastTrackWorked` on the fast track, and emit one `result_batch` message;
stream errors are caught and clear `connection_alive`. -/
def sendAnswers (rk : Ranking) (h : Handler) (answers : List RankedAnswer)
    (force : Bool) (env : WaitEnv) :
    Ranking × Handler × List RankedAnswer × List SendEvent :=
  if !h.connectionAliveEvent then (rk, h, answers, [])
  else if (rk.rankingType == FAST_TRACK) && h.abortFastTrackEvent then (rk, h, answers, [])
  else
    let sel := selectLoop force rk answers
    let js := sel.1
    let answers2 := sel.2.1
    let rk2 := { rk with rankedAnswers := sel.2.2 }
    if js.isEmpty then (rk2, h, answers2, [])
    else
      -- await pre_checks_done: the abort event may be set by a precheck task
      -- while this coroutine is suspended here
      let h2 := { h with preChecksDoneEvent := true,
                         abortFastTrackEvent := h.abortFastTrackEvent || env.abortSetDuringWait }
      if (rk2.rankingType == FAST_TRACK) && h2.abortFastTrackEvent then
        (rk2, h2, answers2, [SendEvent.waitPreChecks])
      else
        let h3 := if rk2.rankingType == FAST_TRACK then { h2 with fastTrackWorked := true } else h2
        let toSend : Msg := [("message_type", MVal.str "result_batch"),
                             ("results", MVal.results js),
                             ("query_id", MVal.str h3.queryId)]
        let sm := send_message h3 env.writeOk toSend
        if sm.2.isSome then
          -- the except clauses: an exception from send_message clears the
          -- connection and skips the counter update
          (rk2, { sm.1 with connectionAliveEvent := false }, answers2,
           [SendEvent.waitPreChecks, SendEvent.emit toSend])
        else
          ({ rk2 with numResultsSent := rk2.numResultsSent + js.length }, sm.1, answers2,
           [SendEvent.waitPreChecks, SendEvent.emit toSend])

/-- Models `Ranking.rankItem`: skip on dead connection or aborted fast track; ask
the LLM for `{score, description}` (`resp` is that call's outcome; internal
errors are logged and swallowed); build the ranked answer with `sent=false`;
early-send it when the score beats `EARLY_SEND_THRESHOLD`; append it to
`rankedAnswers`. -/
def rankItem (rk : Ranking) (h : Handler) (item : Item)
    (resp : Except String RankResp) (env : WaitEnv) : Ranking × Handler :=
  if !h.connectionAliveEvent then (rk, h)
  else if (rk.rankingType == FAST_TRACK) && h.abortFastTrackEvent then (rk, h)
  else
    match resp with
    | Except.error _ => (rk, h)
    | Except.ok r =>
      let ansr : RankedAnswer :=
        { url := item.url, site := item.site, name := item.name,
          score := r.score, description := r.description,
          schemaObject := item.schemaJson, sent := false }
      if EARLY_SEND_THRESHOLD < r.score then
        let res := sendAnswers rk h [ansr] false env
        let a2 := res.2.2.1.headD ansr
        ({ res.1 with rankedAnswers := res.1.rankedAnswers ++ [a2] }, res.2.1)
      else
        ({ rk with rankedAnswers := rk.rankedAnswers ++ [ansr] }, h)

/-- Stable insertion into a descending-by-score list (after all entries with
a greater-or-equal score), matching Python's stable `sorted(..., key=score,
reverse=True)`. -/
def insertDesc (a : RankedAnswer) : List RankedAnswer → List RankedAnswer
  | [] => [a]
  | b :: l => if a.score ≤ b.score then b :: insertDesc a l else a :: b :: l

/-- Models `sorted(results, key=lambda x: x['ranking']['score'], reverse=True)`. -/
def sortDesc : List RankedAnswer → List RankedAnswer
  | [] => []
  | a :: l => insertDesc a (sortDesc l)

/-- Python `str.capitalize`: first character upper-cased, the rest lowered. -/
def pyCapitalize (s : String) : String :=
  match s.data with
  | [] => ""
  | c :: rest => String.mk (c.toUpper :: rest.map Char.toLower)

/-- Models `Ranking.prettyPrintSite`. -/
def prettyPrintSite (site : String) : String :=
  let ans := site.replace "_" " "
  let words := (ans.splitOn " ").filter (fun w => w ≠ "")
  String.intercalate " " (words.map pyCapitalize)

/-- Count occurrences of a site, preserving first-seen order as Python dicts
do. -/
def bumpCount : List (String × Nat) → String → List (String × Nat)
  | [], s => [(s, 1)]
  | (k, n) :: rest, s =>
      if k = s then (k, n + 1) :: rest else (k, n) :: bumpCount rest s

/-- Stable insertion for `sorted(counts, key=lambda x: x[1], reverse=True)`. -/
def insertCountDesc (p : String × Nat) : List (String × Nat) → List (String × Nat)
  | [] => [p]
  | q :: l => if p.2 ≤ q.2 then q :: insertCountDesc p l else p :: q :: l

/-- Stable descending sort of site counts. -/
def sortCountDesc : List (String × Nat) → List (String × Nat)
  | [] => []
  | p :: l => insertCountDesc p (sortCountDesc l)

/-- Models `Ranking.sendMessageOnSitesBeingAsked`: when the site is "all" or "nlws",
send one `asking_sites` message naming the three most common sites of the
retrieved set. -/
def sendMessageOnSitesBeingAsked (h : Handler) (topEmbeddings : List Item)
    (writeOk : Bool) : PyResult :=
  if h.site = "all" ∨ h.site = "nlws" then
    let counts := topEmbeddings.foldl (fun acc it => bumpCount acc it.site) []
    let top := (sortCountDesc counts).take 3
    let topStr := String.intercalate ", " (top.map (fun p => prettyPrintSite p.1))
    let message : Msg := [("message_type", MVal.str "asking_sites"),
                          ("message", MVal.str ("Asking " ++ topStr))]
    match send_message h writeOk message with
    | (h1, none) => ({ h1 with sitesInEmbeddingsSent := true }, none)
    | (h1, some e) => (h1, some e)
  else (h, none)

/-- The selection of the final forced flush at the end of `Ranking.do`
(source lines 235-247): the not-yet-sent answers, sorted by descending
score, kept when scoring above 51, and capped at
`NUM_RESULTS_TO_SEND - num_results_sent + 1` when the budget would be
reached. -/
def flushSelection (rk : Ranking) : List RankedAnswer :=
  let results := rk.rankedAnswers.filter (fun r => r.sent = false)
  let sortedResults := sortDesc results
  let goodResults := sortedResults.filter (fun r => 51 < r.score)
  if NUM_RESULTS_TO_SEND ≤ goodResults.length + rk.numResultsSent then
    goodResults.take (NUM_RESULTS_TO_SEND - rk.numResultsSent + 1)
  else goodResults

/-- The send step of the final flush: give up if more than
`NUM_RESULTS_TO_SEND` were already sent, else force-send the
`flushSelection`. -/
def finalFlush (rk : Ranking) (h : Handler) (env : WaitEnv) :
    Ranking × Handler × List SendEvent :=
  if NUM_RESULTS_TO_SEND < rk.numResultsSent then (rk, h, [])
  else
    let res := sendAnswers rk h (flushSelection rk) true env
    (res.1, res.2.1, res.2.2.2)

/-- Models `Ranking.do`: emit the asking-sites message, run every `rankItem` task
(modelled by the cooperative schedule that runs each task to completion in
creation order), then wait on the `pre_checks_done` barrier, honour a
fast-track abort, store the top `NUM_RESULTS_TO_SEND` answers scoring above
51 as `final_ranked_answers`, and run the final forced flush.  The returned
trace is that of the flush's `sendAnswers` call; the `Option String` is an
exception escaping `do`, if any. -/
def rankingDo (rk0 : Ranking) (h0 : Handler) (items : List Item)
    (resps : List (Except String RankResp)) (env : WaitEnv) :
    Ranking × Handler × List SendEvent × Option String :=
  match sendMessageOnSitesBeingAsked h0 items env.writeOk with
  | (hA, some e) => (rk0, hA, [], some e)
  | (hA, none) =>
    let step := fun (acc : Ranking × Handler) (pr : Item × Except String RankResp) =>
      if acc.2.connectionAliveEvent then rankItem acc.1 acc.2 pr.1 pr.2 env else acc
    let s1 := (items.zip resps).foldl step (rk0, hA)
    let rk1 := s1.1
    let h1 := s1.2
    if !h1.connectionAliveEvent then (rk1, h1, [], none)
    else
      let h2 := { h1 with preChecksDoneEvent := true,
                          abortFastTrackEvent := h1.abortFastTrackEvent || env.abortSetDuringWait }
      if (rk1.rankingType == FAST_TRACK) && h2.abortFastTrackEvent then (rk1, h2, [], none)
      else
        let filtered := rk1.rankedAnswers.filter (fun r => 51 < r.score)
        let ranked := sortDesc filtered
        let h3 := { h2 with finalRankedAnswers := ranked.take NUM_RESULTS_TO_SEND }
        let res := finalFlush rk1 h3 env
        (res.1, res.2.1, res.2.2, none)

/-- Models `utils.utils.recipe_sites`. -/
def recipe_sites : List String :=
  ["seriouseats", "hebbarskitchen", "latam_recipes",
   "woksoflife", "cheftariq", "spruce", "nytimes"]

/-- Models `utils.utils.siteToItemType`. -/
def siteToItemType (site : String) : String :=
  let et :=
    if site = "imdb" then "Movie"
    else if site ∈ recipe_sites then "Recipe"
    else if site = "npr podcasts" then "Thing"
    else if site = "neurips" then "Paper"
    else if site = "backcountry" then "Outdoor Gear"
    else if site = "tripadvisor" then "Restaurant"
    else if site = "zillow" then "RealEstate"
    else "Items"
  "\x7bhttp://nlweb.ai/base\x7d" ++ et

/-- The request-derived initial handler state of `NLWebHandler.__init__`. -/
def initHandler (site query : String) (prevQueries : List String)
    (decontextualizedQuery contextUrl queryId : String)
    (streaming : Bool) (generateMode : String) : Handler :=
  { site := site, query := query, prevQueries := prevQueries,
    decontextualizedQuery := decontextualizedQuery, contextUrl := contextUrl,
    contextDescription := "", queryId := queryId, streaming := streaming,
    generateMode := generateMode, itemType := siteToItemType site,
    queryDone := false, queryIsIrrelevant := false,
    requiresDecontextualization := false, requiredInfoFound := false,
    userQuestion := "", summary := "", preCheckStepState := [],
    deconEvent := false, preChecksDoneEvent := false,
    retrievalDoneEvent := false, connectionAliveEvent := true,
    abortFastTrackEvent := false, fastTrackWorked := false,
    versionNumberSent := false, sitesInEmbeddingsSent := false,
    finalRetrievedItems := [], finalRankedAnswers := [],
    returnValue := [], stream := [] }

/-- The decontextualizer variants of `pre_retrieval/decontextualize.py`. -/
inductive DeconVariant where
  | NoOp
  | PrevQuery
  | ContextUrl
  | Full
deriving DecidableEq, Repr

/-- Models `NLWebHandler.decontextualizeQuery`: chooses the decontextualizer variant
from the request fields; the first branch also assigns
`decontextualized_query := query`. -/
def decontextualizeQuery (h : Handler) : DeconVariant × Handler :=
  if h.prevQueries.length < 1 then
    (DeconVariant.NoOp, { h with decontextualizedQuery := h.query })
  else if h.decontextualizedQuery ≠ "" then
    (DeconVariant.NoOp, h)
  else if 0 < h.prevQueries.length then
    (DeconVariant.PrevQuery, h)
  else if 4 < h.contextUrl.length ∧ h.prevQueries.length = 0 then
    (DeconVariant.ContextUrl, h)
  else
    (DeconVariant.Full, h)

/-- Models `DetectItemType.do`: on a truthy response read `item_type` (a missing key
raises out of `do` before the step is marked), then mark the step DONE. -/
def detectItemTypeDo (h : Handler) (resp : Option Dict) : PyResult :=
  match truthy resp with
  | none => (precheck_step_done h "DetectItemType", none)
  | some d =>
    match dget d "item_type" with
    | none => (h, some "KeyError: item_type")
    | some v => (precheck_step_done { h with itemType := v } "DetectItemType", none)

/-- Models `DetectMultiItemTypeQuery.do`: run the prompt, mark the step DONE. -/
def detectMultiDo (h : Handler) (resp : Option Dict) : PyResult :=
  match resp with
  | _ => (precheck_step_done h "DetectMultiItemTypeQuery", none)

/-- Models `DetectQueryType.do`: run the prompt, mark the step DONE. -/
def detectQueryTypeDo (h : Handler) (resp : Option Dict) : PyResult :=
  match resp with
  | _ => (precheck_step_done h "DetectQueryType", none)

/-- The message literal built in `PrevQueryDecontextualizer.do` after a
rewrite: note its tag key is `"type"`, not `"message_type"`. -/
def deconQueryMessage (q : String) : Msg :=
  [("type", MVal.str "decontextualized_query"),
   ("decontextualized_query", MVal.str q)]

/-- Models `NoOpDecontextualizer.do`: copy the query, clear
`requires_decontextualization`, mark "Decon" DONE. -/
def noOpDeconDo (h : Handler) : PyResult :=
  let h := { h with decontextualizedQuery := h.query,
                    requiresDecontextualization := false }
  (precheck_step_done h "Decon", none)

/-- Models `PrevQueryDecontextualizer.do`: a `None` LLM response is treated as
no-op; a response with `requires_decontextualization == "True"` sets the
flag, fires `abort_fast_track`, stores the rewritten query, marks "Decon"
DONE and emits the `deconQueryMessage`; otherwise no-op.  Missing response
keys raise `KeyError` out of `do` (Python dict indexing). -/
def prevQueryDeconDo (h : Handler) (resp : Option Dict) (writeOk : Bool) : PyResult :=
  match resp with
  | none =>
    let h := { h with requiresDecontextualization := false,
                      decontextualizedQuery := h.query }
    (precheck_step_done h "Decon", none)
  | some d =>
    match dget d "requires_decontextualization" with
    | none => (h, some "KeyError: requires_decontextualization")
    | some v =>
      if v = "True" then
        let h := { h with requiresDecontextualization := true,
                          abortFastTrackEvent := true }
        match dget d "decontextualized_query" with
        | none => (h, some "KeyError: decontextualized_query")
        | some q =>
          let h := { h with decontextualizedQuery := q }
          let h := precheck_step_done h "Decon"
          send_message h writeOk (deconQueryMessage q)
      else
        let h := { h with decontextualizedQuery := h.query }
        (precheck_step_done h "Decon", none)

/-- Models `ContextUrlDecontextualizer.do`: on a first prompt response, fetch the
context item by URL (`ctxItem` is the retriever's outcome), store its
trimmed JSON (`ctxTrimmed`) as `context_description`, rerun the prompt and
adopt the rewritten query, firing `abort_fast_track`; reading
`decontextualized_query` from a `None` second response raises. -/
def contextUrlDeconDo (h : Handler) (resp : Option Dict) (ctxItem : Option Item)
    (ctxTrimmed : String) (resp2 : Option Dict) : PyResult :=
  match resp with
  | none =>
    let h := { h with requiresDecontextualization := false }
    (precheck_step_done h "Decon", none)
  | some _ =>
    match ctxItem with
    | none =>
      let h := { h with requiresDecontextualization := false }
      (precheck_step_done h "Decon", none)
    | some _ =>
      let h := { h with contextDescription := ctxTrimmed }
      match resp2 with
      | none => (h, some "TypeError: decontextualized_query of None")
      | some d2 =>
        match dget d2 "decontextualized_query" with
        | none =>
          ({ h with requiresDecontextualization := true, abortFastTrackEvent := true },
           some "KeyError: decontextualized_query")
        | some q =>
          let h := { h with requiresDecontextualization := true,
                            abortFastTrackEvent := true,
                            decontextualizedQuery := q }
          (precheck_step_done h "Decon", none)

/-- Models `RELEVANCE_DETECTION_ENABLED` from
`pre_retrieval/relevance_detection.py` (off by default). -/
def RELEVANCE_DETECTION_ENABLED : Bool := false

/-- Models `RelevanceDetection.do` with the enablement flag explicit: when enabled
and the site is specific, an LLM verdict of irrelevance sets
`query_is_irrelevant` and `query_done`, fires `abort_fast_track` and emits a
`site_is_irrelevant_to_query` message; the step is marked DONE in every
non-raising branch. -/
def relevanceDoWith (enabled : Bool) (h : Handler) (resp : Option Dict)
    (writeOk : Bool) : PyResult :=
  if !enabled then (precheck_step_done h "Relevance", none)
  else if h.site = "all" ∨ h.site = "nlws" then (precheck_step_done h "Relevance", none)
  else
    match truthy resp with
    | none => (precheck_step_done h "Relevance", none)
    | some d =>
      match dget d "site_is_irrelevant_to_query" with
      | none => (h, some "KeyError: site_is_irrelevant_to_query")
      | some verdict =>
        match dget d "explanation_for_irrelevance" with
        | none => (h, some "KeyError: explanation_for_irrelevance")
        | some expl =>
          if verdict = "True" then
            let message : Msg := [("message_type", MVal.str "site_is_irrelevant_to_query"),
                                  ("message", MVal.str expl)]
            let h := { h with queryIsIrrelevant := true, queryDone := true,
                              abortFastTrackEvent := true }
            match send_message h writeOk message with
            | (h1, none) => (precheck_step_done h1 "Relevance", none)
            | (h1, some e) => (h1, some e)
          else
            (precheck_step_done { h with queryIsIrrelevant := false } "Relevance", none)

/-- Models `RelevanceDetection.do` as shipped (`RELEVANCE_DETECTION_ENABLED = False`). -/
def relevanceDo (h : Handler) (resp : Option Dict) (writeOk : Bool) : PyResult :=
  relevanceDoWith RELEVANCE_DETECTION_ENABLED h resp writeOk

/-- Models `Memory.do`: a truthy response whose `is_memory_request` is "True" emits
a `remember` message; the step is marked DONE in every non-raising branch. -/
def memoryDo (h : Handler) (resp : Option Dict) (writeOk : Bool) : PyResult :=
  match truthy resp with
  | none => (precheck_step_done h "Memory", none)
  | some d =>
    match dget d "is_memory_request" with
    | none => (h, some "KeyError: is_memory_request")
    | some isReq =>
      match dget d "memory_request" with
      | none => (h, some "KeyError: memory_request")
      | some req =>
        if isReq = "True" then
          let message : Msg := [("message_type", MVal.str "remember"),
                                ("item_to_remember", MVal.str req),
                                ("message", MVal.str "I\x27ll remember that")]
          match send_message h writeOk message with
          | (h1, none) => (precheck_step_done h1 "Memory", none)
          | (h1, some e) => (h1, some e)
        else (precheck_step_done h "Memory", none)

/-- Models `RequiredInfo.do`: a truthy response with `required_info_found` ≠ "True"
sets `query_done`, fires `abort_fast_track` and emits an `ask_user` message;
a falsy response assumes the info is present; the step is marked DONE in
every non-raising branch. -/
def requiredInfoDo (h : Handler) (resp : Option Dict) (writeOk : Bool) : PyResult :=
  match truthy resp with
  | none =>
    let h := { h with requiredInfoFound := true, userQuestion := "" }
    (precheck_step_done h "RequiredInfo", none)
  | some d =>
    match dget d "required_info_found" with
    | none => (h, some "KeyError: required_info_found")
    | some v =>
      let h := { h with requiredInfoFound := v = "True" }
      if v = "True" then (precheck_step_done h "RequiredInfo", none)
      else
        let h := { h with queryDone := true, abortFastTrackEvent := true }
        match dget d "user_question" with
        | none => (h, some "KeyError: user_question")
        | some q =>
          let message : Msg := [("message_type", MVal.str "ask_user"),
                                ("message", MVal.str q)]
          match send_message h writeOk message with
          | (h1, none) => (precheck_step_done h1 "RequiredInfo", none)
          | (h1, some e) => (h1, some e)

/-- Models `FastTrack.is_fastTrack_eligible`. -/
def is_fastTrack_eligible (h : Handler) : Bool :=
  if h.contextUrl ≠ "" then false
  else if 0 < h.prevQueries.length then false
  else true

/-- Models `FastTrack.do`: return if ineligible; set `retrieval_done`, retrieve
(`search` is the vector-DB call's outcome; its errors are logged and
re-raised by the `except` clause), wait for the decontextualization event
(`deconWait` is `none` on the 5-second timeout, else the completed flag),
honour `requires_decontextualization` / `query_done` / the abort event, and
otherwise run the fast-track ranking. -/
def fastTrackDo (h : Handler) (search : Except String (List Item))
    (deconWait : Option Bool) (resps : List (Except String RankResp))
    (env : WaitEnv) : PyResult :=
  if !is_fastTrack_eligible h then (h, none)
  else
    let h1 := { h with retrievalDoneEvent := true }
    match search with
    | Except.error e => (h1, some e)
    | Except.ok items =>
      let h2 := { h1 with finalRetrievedItems := items }
      match deconWait with
      | none => (h2, none)
      | some deconDone =>
        if deconDone then
          if h2.requiresDecontextualization then
            ({ h2 with abortFastTrackEvent := true }, none)
          else if !h2.queryDone && !h2.abortFastTrackEvent then
            let res := rankingDo (Ranking.init FAST_TRACK) h2 items resps env
            (res.2.1, res.2.2.2)
          else (h2, none)
        else if !h2.queryDone && !h2.abortFastTrackEvent then
          let res := rankingDo (Ranking.init FAST_TRACK) h2 items resps env
          (res.2.1, res.2.2.2)
        else (h2, none)

/-- Outcomes of every external await of one preparation phase: each
analyzer's LLM response (`none` covers both a missing prompt and a swallowed
LLM error inside `PromptRunner.run_prompt`), the fast-track and regular
vector-DB searches, the fast-track decontextualization wait, and the
ranking-call outcomes. -/
structure PrepOracles where
  searchFT : Except String (List Item)
  deconWaitFT : Option Bool
  ftResps : List (Except String RankResp)
  itemTypeResp : Option Dict
  multiResp : Option Dict
  queryTypeResp : Option Dict
  deconResp : Option Dict
  ctxItem : Option Item
  ctxTrimmed : String
  deconResp2 : Option Dict
  relevanceResp : Option Dict
  memoryResp : Option Dict
  requiredInfoResp : Option Dict
  searchRegular : Except String (List Item)
  env : WaitEnv

/-- Dispatch to the selected decontextualizer's `do`. -/
def deconDo (variant : DeconVariant) (h : Handler) (o : PrepOracles) : PyResult :=
  match variant with
  | DeconVariant.NoOp => noOpDeconDo h
  | DeconVariant.PrevQuery => prevQueryDeconDo h o.deconResp o.env.writeOk
  | DeconVariant.ContextUrl => contextUrlDeconDo h o.deconResp o.ctxItem o.ctxTrimmed o.deconResp2
  | DeconVariant.Full => contextUrlDeconDo h o.deconResp o.ctxItem o.ctxTrimmed o.deconResp2

/-- Models `NLWebHandler.prepare`: register every precheck step and select the
decontextualizer (all constructor side effects run before any task body);
run the eight tasks (modelled by the cooperative schedule that runs each
task to completion in creation order — exact for requests where the fast
track is ineligible, since no other task body suspends on internal events);
`asyncio.gather(..., return_exceptions=True)` absorbs task exceptions; the
`finally` sets `pre_checks_done_event` unconditionally; then perform the
regular retrieval if the fast track did not. -/
def prepareSeq (h0 : Handler) (o : PrepOracles) : PyResult :=
  let h := start_precheck_step h0 "DetectItemType"
  let h := start_precheck_step h "DetectMultiItemTypeQuery"
  let h := start_precheck_step h "DetectQueryType"
  let sel := decontextualizeQuery h
  let h := start_precheck_step sel.2 "Decon"
  let h := start_precheck_step h "Relevance"
  let h := start_precheck_step h "Memory"
  let h := start_precheck_step h "RequiredInfo"
  let h := (fastTrackDo h o.searchFT o.deconWaitFT o.ftResps o.env).1
  let h := (detectItemTypeDo h o.itemTypeResp).1
  let h := (detectMultiDo h o.multiResp).1
  let h := (detectQueryTypeDo h o.queryTypeResp).1
  let h := (deconDo sel.1 h o).1
  let h := (relevanceDo h o.relevanceResp o.env.writeOk).1
  let h := (memoryDo h o.memoryResp o.env.writeOk).1
  let h := (requiredInfoDo h o.requiredInfoResp o.env.writeOk).1
  let h := set_pre_checks_done h
  if h.retrievalDoneEvent then (h, none)
  else
    match o.searchRegular with
    | Except.error e => (h, some e)
    | Except.ok items =>
        ({ h with finalRetrievedItems := items, retrievalDoneEvent := true }, none)

/-- Models `SummarizeResults.do`: truncate `final_ranked_answers` to 3, run the
summary prompt, and on a truthy response store and emit the summary. -/
def summarizeDo (h : Handler) (resp : Option Dict) (writeOk : Bool) : PyResult :=
  let h := { h with finalRankedAnswers := h.finalRankedAnswers.take 3 }
  match truthy resp with
  | none => (h, none)
  | some d =>
    match dget d "summary" with
    | none => (h, some "KeyError: summary")
    | some s =>
      let h := { h with summary := s }
      let message : Msg := [("message_type", MVal.str "summary"),
                            ("message", MVal.str s)]
      match send_message h writeOk message with
      | (h1, none) => (precheck_step_done h1 "post_ranking", none)
      | (h1, some e) => (h1, some e)

/-- Models `PostRanking.do`: a no-op for `generate_mode = "none"`; summarization for
`"summarize"`; marks `query_done` on a dead connection. -/
def postRankingDo (h : Handler) (summaryResp : Option Dict) (writeOk : Bool) : PyResult :=
  if !h.connectionAliveEvent then ({ h with queryDone := true }, none)
  else if h.generateMode = "none" then (h, none)
  else if h.generateMode = "summarize" then summarizeDo h summaryResp writeOk
  else (h, none)

/-- Models `NLWebHandler.get_ranked_answers`: regular-track ranking over
`final_retrieved_items`; its errors are re-raised. -/
def get_ranked_answers (h : Handler) (resps : List (Except String RankResp))
    (env : WaitEnv) : PyResult :=
  let res := rankingDo (Ranking.init REGULAR_TRACK) h h.finalRetrievedItems resps env
  (res.2.1, res.2.2.2)

/-- Models `NLWebHandler.runQuery`: prepare; return early when `query_done`; run the
regular ranking when the fast track did not commit; then post-ranking.
Exceptions are logged and re-raised. -/
def runQuerySeq (h0 : Handler) (o : PrepOracles)
    (regResps : List (Except String RankResp)) (summaryResp : Option Dict) : PyResult :=
  match prepareSeq h0 o with
  | (h, some e) => (h, some e)
  | (h, none) =>
    if h.queryDone then (h, none)
    else
      let stage :=
        if !h.fastTrackWorked then get_ranked_answers h regResps o.env
        else (h, none)
      match stage with
      | (h2, some e) => (h2, some e)
      | (h2, none) => postRankingDo h2 summaryResp o.env.writeOk

/-! ### Concrete request fixtures -/

/-- A streaming request with one previous query (fast track ineligible). -/
def prevQueryHandler : Handler :=
  initHandler "imdb" "and 2000" ["show me movies from 1999"] "" "" "q1" true "none"

/-- The same request in non-streaming mode. -/
def prevQueryHandlerNS : Handler :=
  { prevQueryHandler with streaming := false }

/-- A streaming request with a context URL and no previous queries. -/
def contextUrlHandler : Handler :=
  initHandler "imdb" "who directed it" [] "" "https://example.com/item1" "q6" true "none"

/-- A fresh streaming request with no context and no previous queries. -/
def simpleHandler : Handler :=
  initHandler "imdb" "pasta recipes" [] "" "" "q8" true "none"

/-- A retrieved item fixture. -/
def testItem (n : Nat) : Item :=
  { url := "u" ++ toString n, schemaJson := "s", name := "item" ++ toString n,
    site := "imdb" }

/-- A benign environment: nothing aborts during waits, writes succeed. -/
def quietEnv : WaitEnv := { abortSetDuringWait := false, writeOk := true }

/-- Preparation oracles for a run whose decontextualization LLM response is a
non-empty dict missing the `requires_decontextualization` key (a malformed
but syntactically valid LLM answer), with every other analyzer answering
nothing. -/
def badDeconOracles : PrepOracles :=
  { searchFT := Except.ok [], deconWaitFT := none, ftResps := [],
    itemTypeResp := none, multiResp := none, queryTypeResp := none,
    deconResp := some [("bogus", "x")],
    ctxItem := none, ctxTrimmed := "", deconResp2 := none,
    relevanceResp := none, memoryResp := none, requiredInfoResp := none,
    searchRegular := Except.ok [testItem 0], env := quietEnv }

/-- Preparation oracles for a run whose decontextualization LLM response
requires a rewrite, with every other analyzer answering nothing. -/
def rewriteOracles : PrepOracles :=
  { badDeconOracles with
    deconResp := some [("requires_decontextualization", "True"),
                       ("decontextualized_query", "movies from 1999 and 2000")] }

/-- Preparation oracles for a run whose required-info LLM response reports
missing information. -/
def missingInfoOracles : PrepOracles :=
  { badDeconOracles with
    deconResp := none,
    requiredInfoResp := some [("required_info_found", "False"),
                              ("user_question", "which site?")] }

/-- Eleven items all ranked at score 52: above the final filter threshold of
51 but below `EARLY_SEND_THRESHOLD`, so none is early-sent. -/
def elevenItems : List Item := (List.range 11).map testItem

/-- The ranking-call outcomes for `elevenItems`. -/
def elevenResps : List (Except String RankResp) :=
  (List.range 11).map (fun _ => Except.ok { score := 52, description := "d" })

/-- A handler mid-request whose prechecks have completed. -/
def elevenHandler : Handler :=
  { simpleHandler with preChecksDoneEvent := true }

/-! ### Helper lemmas -/

/-- Models `precheck_step_done` only marks the step map, the decontextualization
event and the barrier event. -/
theorem precheck_step_done_state (h : Handler) (s : String) :
    (precheck_step_done h s).preCheckStepState
      = setStep h.preCheckStepState s StepState.DONE := by
  unfold precheck_step_done
  by_cases hD : s = "Decon"
  · subst hD
    by_cases hA : allStepsDone (setStep h.preCheckStepState "Decon" StepState.DONE) = true <;>
      simp [hA]
  · by_cases hA : allStepsDone (setStep h.preCheckStepState s StepState.DONE) = true <;>
      simp [hD, hA]

/-- Marking a step leaves its binding DONE. -/
theorem lookupStep_setStep_self (m : List (String × StepState)) (k : String)
    (v : StepState) : lookupStep (setStep m k v) k = some v := by
  induction m with
  | nil => simp [setStep, lookupStep]
  | cons p rest ih =>
      by_cases hk : p.1 = k
      · simp [setStep, hk, lookupStep]
      · simp [setStep, hk, lookupStep, ih]

/-- The non-streaming store never touches the client stream. -/
theorem nonStreamingStore_stream (h : Handler) (m : Msg) :
    (nonStreamingStore h m).1.stream = h.stream := by
  unfold nonStreamingStore
  cases hmt : msgLookup m "message_type" with
  | none => simp [hmt]
  | some v =>
    cases v with
    | str mt =>
      by_cases hr : mt = "result_batch"
      · cases hres : msgLookup m "results" with
        | none => simp [hmt, hr, hres]
        | some w =>
          cases w with
          | str s => simp [hmt, hr, hres]
          | results rs => simp [hmt, hr, hres]
      · simp [hmt, hr]
    | results rs => simp [hmt]

/-! ### C9 -/

/-- C9: `Ranking.shouldSend(r)` returns true iff fewer than
`NUM_RESULTS_TO_SEND - 5` (= 5) results have been sent so far, or at least
one already-sent ranked answer has a strictly lower score than `r`.
Confirmed as stated. -/
theorem shouldSend_iff (rk : Ranking) (result : RankedAnswer) :
    shouldSend rk result = true ↔
      rk.numResultsSent < 5 ∨
        ∃ r ∈ rk.rankedAnswers, r.sent = true ∧ r.score < result.score := by
  have h5 : NUM_RESULTS_TO_SEND - 5 = 5 := by norm_num [NUM_RESULTS_TO_SEND]
  unfold shouldSend
  rw [h5]
  by_cases hlt : rk.numResultsSent < 5
  · simp [hlt]
  · simp only [if_neg hlt, List.any_eq_true, Bool.and_eq_true, decide_eq_true_eq]
    constructor
    · rintro ⟨r, hr, hs, hsc⟩
      exact Or.inr ⟨r, hr, hs, hsc⟩
    · rintro (h | ⟨r, hr, hs, hsc⟩)
      · exact absurd h hlt
      · exact ⟨r, hr, hs, hsc⟩

/-! ### C6 -/

/-- C6: the claim says a request with a non-empty `context_url` and no
previous queries selects the ContextUrl decontextualizer.  The code's branch
order makes that branch unreachable: with no previous queries the first
branch already returns NoOp, and every later branch requires a previous
query, so the selector only ever returns NoOp or PrevQuery; on the claimed
input it returns NoOp and merely copies the query. -/
theorem decontextualizeQuery_never_selects_contexturl :
    (decontextualizeQuery contextUrlHandler).1 = DeconVariant.NoOp ∧
    (decontextualizeQuery contextUrlHandler).2.decontextualizedQuery = "who directed it" ∧
    ∀ h : Handler, (decontextualizeQuery h).1 = DeconVariant.NoOp ∨
      (decontextualizeQuery h).1 = DeconVariant.PrevQuery := by
  refine ⟨rfl, rfl, ?_⟩
  intro h
  unfold decontextualizeQuery
  by_cases h1 : h.prevQueries.length < 1
  · simp [h1]
  · by_cases h2 : h.decontextualizedQuery = ""
    · have h3 : 0 < h.prevQueries.length := by omega
      simp [h1, h2, h3]
    · simp [h1, h2]

/-! ### C7 -/

/-- C7: the `decontextualized_query` message built in
`PrevQueryDecontextualizer.do` carries the key `"type"`, not
`"message_type"`; in non-streaming mode `send_message` indexes
`message["message_type"]`, so the emission raises a `KeyError` out of
`do()` after the rewrite flags were already set. -/
theorem decon_message_untagged_raises_nonstreaming :
    msgLookup (deconQueryMessage "movies from 1999 and 2000") "message_type" = none ∧
    (prevQueryDeconDo prevQueryHandlerNS
        (some [("requires_decontextualization", "True"),
               ("decontextualized_query", "movies from 1999 and 2000")]) true).2
      = some "KeyError: message_type" ∧
    (prevQueryDeconDo prevQueryHandlerNS
        (some [("requires_decontextualization", "True"),
               ("decontextualized_query", "movies from 1999 and 2000")]) true).1.requiresDecontextualization
      = true := by
  exact ⟨rfl, rfl, rfl⟩

/-! ### C1 (counterexample) -/

/-- C1: the claim says no `result_batch` is delivered before every registered
precheck step has reached DONE.  In this run the decontextualization task
raises a `KeyError` on a malformed LLM response before marking its step, the
gather absorbs the exception, `prepare`'s `finally` sets the barrier event
anyway, and the regular ranker then delivers a `result_batch` while the
"Decon" step is still INITIAL. -/
theorem resultBatch_delivered_with_step_initial :
    ((runQuerySeq prevQueryHandler badDeconOracles
        [Except.ok { score := 52, description := "d" }] none).1.stream.map msgType)
      = [some "result_batch"] ∧
    lookupStep (runQuerySeq prevQueryHandler badDeconOracles
        [Except.ok { score := 52, description := "d" }] none).1.preCheckStepState "Decon"
      = some StepState.INITIAL :=
  ⟨rfl, rfl⟩

/-! ### C2 (counterexample) -/

/-- C2: the claim caps a request at `NUM_RESULTS_TO_SEND` (= 10) sent items.
With eleven retrieved items all scoring 52 (no early sends), the final flush
takes `good_results[:NUM_RESULTS_TO_SEND - num_results_sent + 1]` — an
off-by-one — and sends all eleven in one `result_batch`. -/
theorem flush_sends_eleven_results :
    (rankingDo (Ranking.init REGULAR_TRACK) elevenHandler elevenItems elevenResps
        quietEnv).1.numResultsSent = 11 ∧
    ((rankingDo (Ranking.init REGULAR_TRACK) elevenHandler elevenItems elevenResps
        quietEnv).2.1.stream.map (fun m => (msgResults m).length)) = [11] ∧
    NUM_RESULTS_TO_SEND < 11 :=
  ⟨rfl, rfl, by decide⟩

/-! ### C3 (counterexample) -/

/-- C3: the claim says `requires_decontextualization = true` prevents any
`result_batch` for the request.  In this run the rewrite sets the flag and
fires `abort_fast_track`, but `query_done` stays false, so `runQuery`
proceeds to the regular ranker, which ignores the fast-track abort event and
delivers a `result_batch`. -/
theorem regular_track_emits_despite_decontextualization :
    (runQuerySeq prevQueryHandler rewriteOracles
        [Except.ok { score := 52, description := "d" }] none).1.requiresDecontextualization
      = true ∧
    ((runQuerySeq prevQueryHandler rewriteOracles
        [Except.ok { score := 52, description := "d" }] none).1.stream.map msgType)
      = [none, some "result_batch"] :=
  ⟨rfl, rfl⟩

/-! ### C4 (counterexample) -/

/-- C4: the claim says the barrier event is set only when every registered
step is DONE.  `prepare`'s `finally` calls the unconditional
`set_pre_checks_done` after the gather, so when the decontextualization task
raises before marking its step, the event is set while "Decon" is still
INITIAL. -/
theorem barrier_set_while_step_initial :
    (prepareSeq prevQueryHandler badDeconOracles).1.preChecksDoneEvent = true ∧
    lookupStep (prepareSeq prevQueryHandler badDeconOracles).1.preCheckStepState "Decon"
      = some StepState.INITIAL :=
  ⟨rfl, rfl⟩

/-! ### C5 (counterexample) -/

/-- The first content message of a fresh request, used to probe the
first-streamed-message policy. -/
def askUserMessage : Msg :=
  [("message_type", MVal.str "ask_user"), ("message", MVal.str "which year?")]

/-- C5: the claim says the first streamed message is an `api_version`
announcement.  The `api_version` write in `send_message` is commented out in
the source: on a fresh streaming handler the first streamed message is the
content message itself (here of type `ask_user`), even though
`versionNumberSent` is set. -/
theorem first_streamed_message_not_api_version :
    (send_message simpleHandler true askUserMessage).1.stream
      = [askUserMessage ++ [("query_id", MVal.str "q8")]] ∧
    ((send_message simpleHandler true askUserMessage).1.stream.map msgType)
      = [some "ask_user"] ∧
    (some "ask_user" ≠ some "api_version") ∧
    (send_message simpleHandler true askUserMessage).1.versionNumberSent = true :=
  ⟨rfl, rfl, by decide, rfl⟩

/-! ### C8 (counterexample) -/

/-- C8: the claim says every `do()` swallows its internal errors and only
`runQuery` re-raises.  `FastTrack.do`'s `except` clause ends in `raise`: on
an eligible request whose retrieval call fails, the error escapes `do` to
its caller. -/
theorem fastTrack_do_propagates_search_error :
    (fastTrackDo simpleHandler (Except.error "ConnectionResetError") none []
        quietEnv).2 = some "ConnectionResetError" :=
  rfl

/-- The non-streaming store never touches the barrier event. -/
theorem nonStreamingStore_event (h : Handler) (m : Msg) :
    (nonStreamingStore h m).1.preChecksDoneEvent = h.preChecksDoneEvent := by
  unfold nonStreamingStore
  cases hmt : msgLookup m "message_type" with
  | none => simp [hmt]
  | some v =>
    cases v with
    | str mt =>
      by_cases hr : mt = "result_batch"
      · cases hres : msgLookup m "results" with
        | none => simp [hmt, hr, hres]
        | some w =>
          cases w with
          | str s => simp [hmt, hr, hres]
          | results rs => simp [hmt, hr, hres]
      · simp [hmt, hr]
    | results rs => simp [hmt]

/-- Models `send_message` never touches the barrier event. -/
theorem send_message_event (h : Handler) (wk : Bool) (m : Msg) :
    (send_message h wk m).1.preChecksDoneEvent = h.preChecksDoneEvent := by
  unfold send_message
  by_cases hc : h.connectionAliveEvent
  · by_cases hs : h.streaming
    · by_cases hv : h.versionNumberSent <;> by_cases hw : wk <;> simp [hc, hs, hv, hw]
    · simp [hc, hs, nonStreamingStore_event]
  · simp [hc]

/-! ### C4 (amended theorem) -/

/-- C4 (amended): completion through `precheck_step_done` fires the barrier
iff the updated step map is all-DONE (as soon as all registered steps are
DONE the event is set, and — when the event was not already set — setting it
implies all steps are DONE); but `set_pre_checks_done`, which `prepare`'s
`finally` calls unconditionally, sets the event regardless of the step map,
so a precheck task that raises before marking its step breaks the only-if
direction at the request level. -/
theorem precheck_step_done_iff_all_done :
    (∀ (h : Handler) (s : String),
       h.preChecksDoneEvent = false →
         ((precheck_step_done h s).preChecksDoneEvent = true ↔
           allStepsDone ((precheck_step_done h s).preCheckStepState) = true)) ∧
    (∀ (h : Handler) (s : String),
       allStepsDone (setStep h.preCheckStepState s StepState.DONE) = true →
         (precheck_step_done h s).preChecksDoneEvent = true) ∧
    (∀ h : Handler, (set_pre_checks_done h).preChecksDoneEvent = true) := by
  refine ⟨?_, ?_, fun h => rfl⟩
  · intro h s hev
    rw [precheck_step_done_state]
    unfold precheck_step_done
    by_cases hD : s = "Decon"
    · subst hD
      by_cases hA : allStepsDone (setStep h.preCheckStepState "Decon" StepState.DONE) = true <;>
        simp [hA, hev]
    · by_cases hA : allStepsDone (setStep h.preCheckStepState s StepState.DONE) = true <;>
        simp [hD, hA, hev]
  · intro h s hA
    unfold precheck_step_done
    by_cases hD : s = "Decon"
    · subst hD; simp [hA]
    · simp [hD, hA]

/-- A handler with one registered, still-INITIAL step and an unfired
barrier. -/
def oneStepHandler : Handler :=
  { simpleHandler with preCheckStepState := [("Memory", StepState.INITIAL)] }

/-- Witness for the C4 amended theorem at a concrete handler. -/
theorem precheck_step_done_iff_all_done_witness :
    ((precheck_step_done oneStepHandler "Memory").preChecksDoneEvent = true ↔
      allStepsDone ((precheck_step_done oneStepHandler "Memory").preCheckStepState) = true) ∧
    (precheck_step_done oneStepHandler "Memory").preChecksDoneEvent = true ∧
    (set_pre_checks_done oneStepHandler).preChecksDoneEvent = true :=
  ⟨precheck_step_done_iff_all_done.1 oneStepHandler "Memory" rfl,
   precheck_step_done_iff_all_done.2.1 oneStepHandler "Memory" rfl,
   precheck_step_done_iff_all_done.2.2 oneStepHandler⟩

/-! ### C8 (amended theorem) -/

/-- C8 (amended): a decontextualization analyzer whose prompt run fails
(`run_prompt` returns `None`) swallows the failure and marks its step DONE;
but `FastTrack.do` re-raises a retrieval error to its caller, and an
analyzer that indexes a malformed LLM response raises a `KeyError` out of
`do()` with its registered step left un-marked — only `prepare`'s gather
absorbs these. -/
theorem do_error_propagation_policy :
    (∀ (h : Handler) (e : String) (deconWait : Option Bool)
       (resps : List (Except String RankResp)) (env : WaitEnv),
       is_fastTrack_eligible h = true →
         (fastTrackDo h (Except.error e) deconWait resps env).2 = some e) ∧
    (∀ (h : Handler) (wk : Bool),
       (prevQueryDeconDo h none wk).2 = none ∧
       lookupStep (prevQueryDeconDo h none wk).1.preCheckStepState "Decon"
         = some StepState.DONE) ∧
    (∀ (h : Handler) (d : Dict) (wk : Bool),
       dget d "requires_decontextualization" = none →
         (prevQueryDeconDo h (some d) wk).2
           = some "KeyError: requires_decontextualization" ∧
         (prevQueryDeconDo h (some d) wk).1.preCheckStepState
           = h.preCheckStepState) := by
  refine ⟨?_, ?_, ?_⟩
  · intro h e deconWait resps env helig
    simp [fastTrackDo, helig]
  · intro h wk
    constructor
    · simp [prevQueryDeconDo]
    · simp only [prevQueryDeconDo]
      rw [precheck_step_done_state, lookupStep_setStep_self]
  · intro h d wk hd
    constructor
    · simp [prevQueryDeconDo, hd]
    · simp [prevQueryDeconDo, hd]

/-- Witness for the C8 amended theorem at concrete inputs. -/
theorem do_error_propagation_policy_witness :
    (fastTrackDo simpleHandler (Except.error "TimeoutError") (some true) []
        quietEnv).2 = some "TimeoutError" ∧
    ((prevQueryDeconDo prevQueryHandler none true).2 = none ∧
      lookupStep (prevQueryDeconDo prevQueryHandler none true).1.preCheckStepState "Decon"
        = some StepState.DONE) ∧
    ((prevQueryDeconDo prevQueryHandler (some [("bogus", "x")]) true).2
        = some "KeyError: requires_decontextualization" ∧
      (prevQueryDeconDo prevQueryHandler (some [("bogus", "x")]) true).1.preCheckStepState
        = prevQueryHandler.preCheckStepState) :=
  ⟨do_error_propagation_policy.1 simpleHandler "TimeoutError" (some true) [] quietEnv rfl,
   do_error_propagation_policy.2.1 prevQueryHandler true,
   do_error_propagation_policy.2.2 prevQueryHandler [("bogus", "x")] true rfl⟩

/-! ### C5 (amended theorem) -/

/-- C5 (amended): `send_message` never streams an `api_version`
announcement: it either leaves the stream unchanged (dead connection,
failed write, or non-streaming aggregation) or appends exactly the caller's
message with `query_id` attached; in particular the first streamed message
of a fresh live streaming handler is the first content message itself. -/
theorem send_message_stream_policy :
    (∀ (h : Handler) (wk : Bool) (m : Msg),
       (send_message h wk m).1.stream = h.stream ∨
       (send_message h wk m).1.stream
         = h.stream ++ [msgSetKey m "query_id" (MVal.str h.queryId)]) ∧
    (∀ (h : Handler) (m : Msg),
       h.stream = [] → h.streaming = true → h.connectionAliveEvent = true →
         (send_message h true m).1.stream
           = [msgSetKey m "query_id" (MVal.str h.queryId)]) := by
  constructor
  · intro h wk m
    unfold send_message
    by_cases hc : h.connectionAliveEvent
    · by_cases hs : h.streaming
      · by_cases hv : h.versionNumberSent <;> by_cases hw : wk <;>
          simp [hc, hs, hv, hw]
      · simp [hc, hs, nonStreamingStore_stream]
    · simp [hc]
  · intro h m hstream hs hc
    unfold send_message
    by_cases hv : h.versionNumberSent <;> simp [hc, hs, hv, hstream]

/-- Witness for the C5 amended theorem at a concrete handler and message. -/
theorem send_message_stream_policy_witness :
    ((send_message prevQueryHandler true askUserMessage).1.stream
        = prevQueryHandler.stream ∨
      (send_message prevQueryHandler true askUserMessage).1.stream
        = prevQueryHandler.stream
            ++ [msgSetKey askUserMessage "query_id" (MVal.str prevQueryHandler.queryId)]) ∧
    (send_message prevQueryHandler true askUserMessage).1.stream
      = [msgSetKey askUserMessage "query_id" (MVal.str prevQueryHandler.queryId)] :=
  ⟨send_message_stream_policy.1 prevQueryHandler true askUserMessage,
   send_message_stream_policy.2 prevQueryHandler askUserMessage rfl rfl rfl⟩

/-- Case analysis of one `sendAnswers` call: the trace is empty (dropped at
an entry check or an empty selection), a bare barrier wait (dropped at the
post-barrier abort re-check), or a barrier wait followed by the emission of
the `result_batch` built from the selection — in which case the barrier
event holds in the post-state. -/
theorem sendAnswers_cases (rk : Ranking) (h : Handler) (answers : List RankedAnswer)
    (force : Bool) (env : WaitEnv) :
    (sendAnswers rk h answers force env).2.2.2 = [] ∨
    (sendAnswers rk h answers force env).2.2.2 = [SendEvent.waitPreChecks] ∨
    ((sendAnswers rk h answers force env).2.2.2
        = [SendEvent.waitPreChecks,
           SendEvent.emit [("message_type", MVal.str "result_batch"),
                           ("results", MVal.results (selectLoop force rk answers).1),
                           ("query_id", MVal.str h.queryId)]] ∧
      (sendAnswers rk h answers force env).2.1.preChecksDoneEvent = true) := by
  unfold sendAnswers
  by_cases hc : h.connectionAliveEvent
  · by_cases hab : (rk.rankingType == FAST_TRACK) && h.abortFastTrackEvent
    · simp [hc, hab]
    · by_cases hjs : (selectLoop force rk answers).1.isEmpty
      · simp [hc, hab, hjs]
      · by_cases hab2 : (rk.rankingType == FAST_TRACK)
            && (h.abortFastTrackEvent || env.abortSetDuringWait)
        · simp [hc, hab, hjs, hab2]
        · right; right
          by_cases hft : rk.rankingType == FAST_TRACK
          · have hab1 : h.abortFastTrackEvent = false := by
              cases ha : h.abortFastTrackEvent with
              | false => rfl
              | true => exact absurd (by simp [hft, ha]) hab
            have henv : env.abortSetDuringWait = false := by
              cases ho : env.abortSetDuringWait with
              | false => rfl
              | true => exact absurd (by simp [hft, hab1, ho]) hab2
            simp [hc, hab1, hjs, hft, henv]
            split <;> simp [send_message_event]
          · simp [hc, hab, hjs, hab2, hft]
            split <;> simp [send_message_event]
  · simp [hc]

/-! ### C1 (amended theorem) -/

/-- C1 (amended): every `result_batch` emission in `Ranking.sendAnswers`
waits on the `pre_checks_done` barrier first — the trace of a call is empty,
a bare barrier wait, or a barrier wait followed by one emission, and any
emission happens with the barrier event set.  (The stronger claim that every
registered step is then DONE fails when a precheck task raises before
marking its step, since `prepare`'s `finally` releases the barrier
unconditionally.)  -/
theorem sendAnswers_emits_only_after_barrier :
    (∀ (rk : Ranking) (h : Handler) (answers : List RankedAnswer)
       (force : Bool) (env : WaitEnv),
       (sendAnswers rk h answers force env).2.2.2 = [] ∨
       (sendAnswers rk h answers force env).2.2.2 = [SendEvent.waitPreChecks] ∨
       ∃ m, (sendAnswers rk h answers force env).2.2.2
              = [SendEvent.waitPreChecks, SendEvent.emit m]) ∧
    (∀ (rk : Ranking) (h : Handler) (answers : List RankedAnswer)
       (force : Bool) (env : WaitEnv) (m : Msg),
       SendEvent.emit m ∈ (sendAnswers rk h answers force env).2.2.2 →
         (sendAnswers rk h answers force env).2.1.preChecksDoneEvent = true) := by
  constructor
  · intro rk h answers force env
    rcases sendAnswers_cases rk h answers force env with h1 | h2 | ⟨h3, _⟩
    · exact Or.inl h1
    · exact Or.inr (Or.inl h2)
    · exact Or.inr (Or.inr ⟨_, h3⟩)
  · intro rk h answers force env m hm
    rcases sendAnswers_cases rk h answers force env with h1 | h2 | ⟨_, hev⟩
    · rw [h1] at hm; simp at hm
    · rw [h2] at hm; simp at hm
    · exact hev

/-- An unsent ranked answer fixture scoring 60. -/
def flushAnswerA : RankedAnswer :=
  { url := "ua", site := "imdb", name := "A", score := 60, description := "da",
    schemaObject := "s", sent := false }

/-- An unsent ranked answer fixture scoring 55. -/
def flushAnswerB : RankedAnswer :=
  { url := "ub", site := "imdb", name := "B", score := 55, description := "db",
    schemaObject := "s", sent := false }

/-- A regular-track ranking state holding the two fixtures, none sent. -/
def flushRanking : Ranking :=
  { rankingType := REGULAR_TRACK, numResultsSent := 0,
    rankedAnswers := [flushAnswerA, flushAnswerB] }

/-- The `result_batch` that a forced `sendAnswers` of `[flushAnswerA]` on
`elevenHandler` emits. -/
def earlyMessage : Msg :=
  [("message_type", MVal.str "result_batch"),
   ("results", MVal.results [toJsonResult flushAnswerA]),
   ("query_id", MVal.str "q8")]

/-- Witness for the C1 amended theorem at a concrete call. -/
theorem sendAnswers_emits_only_after_barrier_witness :
    ((sendAnswers flushRanking elevenHandler [flushAnswerA] true quietEnv).2.2.2 = [] ∨
     (sendAnswers flushRanking elevenHandler [flushAnswerA] true quietEnv).2.2.2
        = [SendEvent.waitPreChecks] ∨
     ∃ m, (sendAnswers flushRanking elevenHandler [flushAnswerA] true quietEnv).2.2.2
            = [SendEvent.waitPreChecks, SendEvent.emit m]) ∧
    (sendAnswers flushRanking elevenHandler [flushAnswerA] true quietEnv).2.1.preChecksDoneEvent
      = true :=
  ⟨sendAnswers_emits_only_after_barrier.1 flushRanking elevenHandler [flushAnswerA] true quietEnv,
   sendAnswers_emits_only_after_barrier.2 flushRanking elevenHandler [flushAnswerA] true quietEnv
     earlyMessage (by decide)⟩

/-! ### C3 (amended theorem) -/

/-- C3 (amended): the fast-track ranker emits nothing once
`abort_fast_track` is set — whether at entry or while suspended at the
barrier — and `rankItem` on an aborted fast track returns without effect;
and when a precheck sets `query_done` (irrelevant query, missing required
info), `runQuery` returns right after `prepare`, so no ranker runs at all.
`requires_decontextualization` alone only aborts the fast track: the regular
ranker still runs and may emit (see the counterexample). -/
theorem fast_track_abort_and_early_return :
    (∀ (rk : Ranking) (h : Handler) (answers : List RankedAnswer)
       (force : Bool) (env : WaitEnv) (m : Msg),
       rk.rankingType = FAST_TRACK →
       (h.abortFastTrackEvent = true ∨ env.abortSetDuringWait = true) →
       SendEvent.emit m ∉ (sendAnswers rk h answers force env).2.2.2) ∧
    (∀ (rk : Ranking) (h : Handler) (item : Item)
       (resp : Except String RankResp) (env : WaitEnv),
       rk.rankingType = FAST_TRACK → h.abortFastTrackEvent = true →
         rankItem rk h item resp env = (rk, h)) ∧
    (∀ (h0 : Handler) (o : PrepOracles) (regResps : List (Except String RankResp))
       (sResp : Option Dict),
       (prepareSeq h0 o).2 = none → (prepareSeq h0 o).1.queryDone = true →
         runQuerySeq h0 o regResps sResp = prepareSeq h0 o) := by
  refine ⟨?_, ?_, ?_⟩
  · intro rk h answers force env m hty hdrop
    unfold sendAnswers
    by_cases hc : h.connectionAliveEvent
    · by_cases hab : h.abortFastTrackEvent
      · simp [hc, hab, hty]
      · have henv : env.abortSetDuringWait = true := by
          rcases hdrop with hd | hd
          · exact absurd hd hab
          · exact hd
        by_cases hjs : (selectLoop force rk answers).1.isEmpty
        · simp [hc, hab, hjs]
        · simp [hc, hab, hjs, hty, henv]
    · simp [hc]
  · intro rk h item resp env hty hab
    unfold rankItem
    by_cases hc : h.connectionAliveEvent
    · simp [hc, hty, hab]
    · simp [hc]
  · intro h0 o regResps sResp hnone hdone
    rcases hps : prepareSeq h0 o with ⟨h1, e1⟩
    rw [hps] at hnone hdone
    simp only at hnone hdone
    subst hnone
    unfold runQuerySeq
    rw [hps]
    simp [hdone]

/-- Witness for the C3 amended theorem at concrete inputs: an aborted
fast-track ranking state, and the missing-required-info preparation whose
`query_done` short-circuits `runQuery`. -/
theorem fast_track_abort_and_early_return_witness :
    SendEvent.emit earlyMessage ∉
      (sendAnswers { flushRanking with rankingType := FAST_TRACK }
        { elevenHandler with abortFastTrackEvent := true }
        [flushAnswerA] true quietEnv).2.2.2 ∧
    rankItem { flushRanking with rankingType := FAST_TRACK }
        { elevenHandler with abortFastTrackEvent := true }
        (testItem 0) (Except.ok { score := 80, description := "d" }) quietEnv
      = ({ flushRanking with rankingType := FAST_TRACK },
         { elevenHandler with abortFastTrackEvent := true }) ∧
    runQuerySeq prevQueryHandler missingInfoOracles [] none
      = prepareSeq prevQueryHandler missingInfoOracles :=
  ⟨fast_track_abort_and_early_return.1 _ _ [flushAnswerA] true quietEnv earlyMessage
     rfl (Or.inl rfl),
   fast_track_abort_and_early_return.2.1 _ _ (testItem 0)
     (Except.ok { score := 80, description := "d" }) quietEnv rfl rfl,
   fast_track_abort_and_early_return.2.2 prevQueryHandler missingInfoOracles [] none
     rfl rfl⟩

/-! ### C10 -/

/-- C10: in `Ranking.sendAnswers` each selected answer's `sent` flag is set
before the barrier wait and before the write, so when the fast-track abort
is observed set after the barrier releases, or the stream write fails, the
answer ends with `sent = true` while the client stream is unchanged — it was
never delivered in any `result_batch`. -/
theorem sendAnswers_sent_without_delivery
    (rk : Ranking) (h : Handler) (a : RankedAnswer) (env : WaitEnv)
    (hty : rk.rankingType = FAST_TRACK)
    (halive : h.connectionAliveEvent = true)
    (habort : h.abortFastTrackEvent = false)
    (hstream : h.streaming = true)
    (hdrop : env.abortSetDuringWait = true ∨ env.writeOk = false) :
    (sendAnswers rk h [a] true env).2.2.1 = [{ a with sent := true }] ∧
    (sendAnswers rk h [a] true env).2.1.stream = h.stream := by
  unfold sendAnswers
  by_cases hab2 : env.abortSetDuringWait
  · simp [halive, habort, hty, hab2, selectLoop]
  · have hwk : env.writeOk = false := by
      rcases hdrop with hd | hd
      · exact absurd hd hab2
      · exact hd
    by_cases hv : h.versionNumberSent <;>
      simp [halive, habort, hty, hab2, hwk, hstream, hv, selectLoop, send_message]

/-- Witness for C10 at a concrete call: the abort event fires while the
sender is parked at the barrier. -/
theorem sendAnswers_sent_without_delivery_witness :
    (sendAnswers { flushRanking with rankingType := FAST_TRACK } elevenHandler
        [flushAnswerB] true { abortSetDuringWait := true, writeOk := true }).2.2.1
      = [{ flushAnswerB with sent := true }] ∧
    (sendAnswers { flushRanking with rankingType := FAST_TRACK } elevenHandler
        [flushAnswerB] true { abortSetDuringWait := true, writeOk := true }).2.1.stream
      = elevenHandler.stream :=
  sendAnswers_sent_without_delivery { flushRanking with rankingType := FAST_TRACK }
    elevenHandler flushAnswerB { abortSetDuringWait := true, writeOk := true }
    rfl rfl rfl rfl (Or.inl rfl)

/-- Membership in a stable descending insertion. -/
theorem mem_insertDesc {x a : RankedAnswer} {l : List RankedAnswer} :
    x ∈ insertDesc a l ↔ x = a ∨ x ∈ l := by
  induction l with
  | nil => simp [insertDesc]
  | cons b t ih =>
      unfold insertDesc
      by_cases hle : a.score ≤ b.score
      · rw [if_pos hle]
        simp only [List.mem_cons, ih]
        tauto
      · rw [if_neg hle]
        simp only [List.mem_cons]

/-- Insertion preserves the descending-score ordering. -/
theorem pairwise_insertDesc {a : RankedAnswer} {l : List RankedAnswer}
    (hl : l.Pairwise (fun x y => y.score ≤ x.score)) :
    (insertDesc a l).Pairwise (fun x y => y.score ≤ x.score) := by
  induction l with
  | nil => simp [insertDesc]
  | cons b t ih =>
      rw [List.pairwise_cons] at hl
      obtain ⟨hb, ht⟩ := hl
      unfold insertDesc
      by_cases hle : a.score ≤ b.score
      · rw [if_pos hle, List.pairwise_cons]
        refine ⟨?_, ih ht⟩
        intro x hx
        rcases mem_insertDesc.mp hx with hxa | hxl
        · subst hxa; exact hle
        · exact hb x hxl
      · rw [if_neg hle, List.pairwise_cons]
        constructor
        · intro x hx
          rcases List.mem_cons.mp hx with hxb | hxl
          · subst hxb; omega
          · have := hb x hxl; omega
        · exact List.pairwise_cons.mpr ⟨hb, ht⟩

/-- The sort used by the final flush produces a descending-score list. -/
theorem pairwise_sortDesc (l : List RankedAnswer) :
    (sortDesc l).Pairwise (fun x y => y.score ≤ x.score) := by
  induction l with
  | nil => simp [sortDesc]
  | cons a t ih =>
      rw [sortDesc]
      exact pairwise_insertDesc ih

/-- Under `force`, the selection loop selects every answer, in order. -/
theorem selectLoop_force_js (rk : Ranking) (answers : List RankedAnswer) :
    (selectLoop true rk answers).1 = answers.map toJsonResult := by
  induction answers generalizing rk with
  | nil => rfl
  | cons a t ih => simp [selectLoop, ih]

/-- The flush selection is sorted by descending score: it is obtained from
a `sortDesc` by a filter and possibly a take, both sublists. -/
theorem flushSelection_sorted (rk : Ranking) :
    (flushSelection rk).Pairwise (fun x y => y.score ≤ x.score) := by
  have hsorted := pairwise_sortDesc (rk.rankedAnswers.filter (fun r => r.sent = false))
  have hgood := List.Pairwise.sublist
    (@List.filter_sublist _ (fun r => decide (51 < r.score))
      (sortDesc (rk.rankedAnswers.filter (fun r => r.sent = false))))
    hsorted
  simp only [flushSelection]
  split
  · exact List.Pairwise.sublist (List.take_sublist _ _) hgood
  · exact hgood

/-- The flush selection never exceeds `NUM_RESULTS_TO_SEND + 1` items. -/
theorem flushSelection_length (rk : Ranking) :
    (flushSelection rk).length ≤ NUM_RESULTS_TO_SEND + 1 := by
  simp only [flushSelection, NUM_RESULTS_TO_SEND]
  split
  · exact le_trans (List.length_take_le _ _) (by omega)
  · next hcond => omega

/-! ### C2 (amended theorem) -/

/-- C2 (amended): early sends are not capped, and the final flush may send
up to `NUM_RESULTS_TO_SEND - num_results_sent + 1` items — one more than the
remaining budget, so a request can exceed `NUM_RESULTS_TO_SEND` in total
(see the counterexample); but every batch the final flush emits lists its
items in descending score order, and its size never exceeds
`NUM_RESULTS_TO_SEND + 1`. -/
theorem finalFlush_desc_and_bound (rk : Ranking) (h : Handler) (env : WaitEnv) :
    ∀ m, SendEvent.emit m ∈ (finalFlush rk h env).2.2 →
      (msgResults m).Pairwise (fun a b => b.score ≤ a.score) ∧
      (msgResults m).length ≤ NUM_RESULTS_TO_SEND + 1 := by
  intro m hm
  unfold finalFlush at hm
  by_cases hguard : NUM_RESULTS_TO_SEND < rk.numResultsSent
  · rw [if_pos hguard] at hm
    simp at hm
  · rw [if_neg hguard] at hm
    simp only at hm
    rcases sendAnswers_cases rk h (flushSelection rk) true env with h1 | h2 | ⟨h3, _⟩
    · rw [h1] at hm; simp at hm
    · rw [h2] at hm; simp at hm
    · rw [h3] at hm
      simp only [List.mem_cons, List.not_mem_nil, or_false] at hm
      rcases hm with hm | hm
      · cases hm
      · have hmeq := SendEvent.emit.inj hm
        subst hmeq
        have hres : msgResults
            [("message_type", MVal.str "result_batch"),
             ("results", MVal.results (selectLoop true rk (flushSelection rk)).1),
             ("query_id", MVal.str h.queryId)]
            = (selectLoop true rk (flushSelection rk)).1 := by
          simp [msgResults, msgLookup]
        rw [hres, selectLoop_force_js]
        constructor
        · exact List.Pairwise.map toJsonResult (fun a b hab => hab)
            (flushSelection_sorted rk)
        · rw [List.length_map]
          exact flushSelection_length rk

/-- The flush state used to witness the C2 amended theorem: two unsent
answers, scores 60 then 55. -/
def flushMessage : Msg :=
  [("message_type", MVal.str "result_batch"),
   ("results", MVal.results [toJsonResult flushAnswerA, toJsonResult flushAnswerB]),
   ("query_id", MVal.str "q8")]

/-- Witness for the C2 amended theorem at a concrete flush. -/
theorem finalFlush_desc_and_bound_witness :
    (msgResults flushMessage).Pairwise (fun a b => b.score ≤ a.score) ∧
    (msgResults flushMessage).length ≤ NUM_RESULTS_TO_SEND + 1 :=
  finalFlush_desc_and_bound flushRanking elevenHandler quietEnv flushMessage (by decide)

end NLWeb
